import Mathlib

/-!
Verification of the OIDC conformance validator
(`scripts/conformance_validator.py`).

The script is a sequential pipeline of five protocol checks (Discovery,
JWKS, Registration, Registration CRUD, Metadata Compliance) over an
OpenID-Connect provider, followed by a reporter that turns the collected
results into a process exit code.  We embed the script shallowly:

* JSON documents become the inductive type `Json`; Python's dynamic
  behaviours (`in`, `.get`, `[]`-indexing, `len`, truthiness, iteration,
  slicing) become total Lean functions into `Except String _`, where
  `Except.error` models a raised Python exception whose message is caught
  by the enclosing `try`/`except` block of each check.
* Every outbound HTTP exchange is abstracted as an oracle value of type
  `Except String Json` (or `Except String Nat` for the DELETE status):
  `.ok` is a 2xx response with a parsed body, `.error` is any
  requests-level exception (`raise_for_status`, timeout, JSON decode).
* The tester object becomes `TesterState` (the stripped base URL plus the
  optional cached metadata); each `test_*` method becomes a function
  `TesterState → … → TesterState × TestResult` so that mutation (or the
  absence of it) of the shared metadata is explicit.
-/

/-- JSON values, as produced by Python's `json` module. -/
inductive Json where
  | null : Json
  | bool (b : Bool) : Json
  | num (n : Int) : Json
  | str (s : String) : Json
  | arr (elems : List Json) : Json
  | obj (fields : List (String × Json)) : Json

mutual

/-- Decidable equality of JSON values. -/
def Json.decEq : (a b : Json) → Decidable (a = b)
  | .null, .null => isTrue rfl
  | .bool a, .bool b =>
    if h : a = b then isTrue (by rw [h]) else isFalse (by intro hh; cases hh; exact h rfl)
  | .num a, .num b =>
    if h : a = b then isTrue (by rw [h]) else isFalse (by intro hh; cases hh; exact h rfl)
  | .str a, .str b =>
    if h : a = b then isTrue (by rw [h]) else isFalse (by intro hh; cases hh; exact h rfl)
  | .arr xs, .arr ys =>
    match Json.decEqList xs ys with
    | isTrue h => isTrue (by rw [h])
    | isFalse h => isFalse (by intro hh; cases hh; exact h rfl)
  | .obj fs, .obj gs =>
    match Json.decEqFields fs gs with
    | isTrue h => isTrue (by rw [h])
    | isFalse h => isFalse (by intro hh; cases hh; exact h rfl)
  | .null, .bool _ => isFalse (by intro h; cases h)
  | .null, .num _ => isFalse (by intro h; cases h)
  | .null, .str _ => isFalse (by intro h; cases h)
  | .null, .arr _ => isFalse (by intro h; cases h)
  | .null, .obj _ => isFalse (by intro h; cases h)
  | .bool _, .null => isFalse (by intro h; cases h)
  | .bool _, .num _ => isFalse (by intro h; cases h)
  | .bool _, .str _ => isFalse (by intro h; cases h)
  | .bool _, .arr _ => isFalse (by intro h; cases h)
  | .bool _, .obj _ => isFalse (by intro h; cases h)
  | .num _, .null => isFalse (by intro h; cases h)
  | .num _, .bool _ => isFalse (by intro h; cases h)
  | .num _, .str _ => isFalse (by intro h; cases h)
  | .num _, .arr _ => isFalse (by intro h; cases h)
  | .num _, .obj _ => isFalse (by intro h; cases h)
  | .str _, .null => isFalse (by intro h; cases h)
  | .str _, .bool _ => isFalse (by intro h; cases h)
  | .str _, .num _ => isFalse (by intro h; cases h)
  | .str _, .arr _ => isFalse (by intro h; cases h)
  | .str _, .obj _ => isFalse (by intro h; cases h)
  | .arr _, .null => isFalse (by intro h; cases h)
  | .arr _, .bool _ => isFalse (by intro h; cases h)
  | .arr _, .num _ => isFalse (by intro h; cases h)
  | .arr _, .str _ => isFalse (by intro h; cases h)
  | .arr _, .obj _ => isFalse (by intro h; cases h)
  | .obj _, .null => isFalse (by intro h; cases h)
  | .obj _, .bool _ => isFalse (by intro h; cases h)
  | .obj _, .num _ => isFalse (by intro h; cases h)
  | .obj _, .str _ => isFalse (by intro h; cases h)
  | .obj _, .arr _ => isFalse (by intro h; cases h)

/-- Decidable equality of JSON lists. -/
def Json.decEqList : (a b : List Json) → Decidable (a = b)
  | [], [] => isTrue rfl
  | [], _ :: _ => isFalse (by intro h; cases h)
  | _ :: _, [] => isFalse (by intro h; cases h)
  | x :: xs, y :: ys =>
    match Json.decEq x y with
    | isFalse h => isFalse (by intro hh; cases hh; exact h rfl)
    | isTrue h1 =>
      match Json.decEqList xs ys with
      | isTrue h2 => isTrue (by rw [h1, h2])
      | isFalse h2 => isFalse (by intro hh; cases hh; exact h2 rfl)

/-- Decidable equality of JSON object field lists. -/
def Json.decEqFields : (a b : List (String × Json)) → Decidable (a = b)
  | [], [] => isTrue rfl
  | [], _ :: _ => isFalse (by intro h; cases h)
  | _ :: _, [] => isFalse (by intro h; cases h)
  | (k, x) :: xs, (l, y) :: ys =>
    if h0 : k = l then
      match Json.decEq x y with
      | isFalse h => isFalse (by intro hh; cases hh; exact h rfl)
      | isTrue h1 =>
        match Json.decEqFields xs ys with
        | isTrue h2 => isTrue (by rw [h0, h1, h2])
        | isFalse h2 => isFalse (by intro hh; cases hh; exact h2 rfl)
    else isFalse (by intro hh; cases hh; exact h0 rfl)

end

instance : DecidableEq Json := Json.decEq

/-- Python truthiness of a JSON value (`if x:`). -/
def truthy : Json → Bool
  | .null => false
  | .bool b => b
  | .num n => n != 0
  | .str s => !s.isEmpty
  | .arr xs => !xs.isEmpty
  | .obj fs => !fs.isEmpty

/-- Key lookup in an object's field list (first match). -/
def Json.lookup (j : Json) (k : String) : Option Json :=
  match j with
  | .obj fs => List.lookup k fs
  | _ => none

/-- Is `needle` a substring of `hay` (Python `needle in hay` for strings)? -/
def substr (needle hay : String) : Bool :=
  needle.isEmpty || (hay.splitOn needle).length ≥ 2

/-- Python `k in j`: key membership for dicts, element membership for
lists, substring for strings; a `TypeError` otherwise. -/
def pyIn (k : String) (j : Json) : Except String Bool :=
  match j with
  | .obj fs => .ok (List.lookup k fs).isSome
  | .arr xs => .ok (xs.contains (Json.str k))
  | .str s => .ok (substr k s)
  | _ => .error "TypeError: argument is not iterable"

/-- Python `j.get(k, default)`: only dicts have `.get`
(`AttributeError` otherwise). -/
def pyGet (j : Json) (k : String) (dflt : Json) : Except String Json :=
  match j with
  | .obj fs => .ok ((List.lookup k fs).getD dflt)
  | _ => .error "AttributeError: object has no attribute get"

/-- Python `j[k]` for a string key: `KeyError` when absent, `TypeError`
on non-dicts. -/
def pyIndex (j : Json) (k : String) : Except String Json :=
  match j with
  | .obj fs =>
    match List.lookup k fs with
    | some v => .ok v
    | none => .error ("KeyError: \x27" ++ k ++ "\x27")
  | _ => .error "TypeError: indices must be integers"

/-- Python `len(j)`: defined for strings, lists and dicts. -/
def pyLen (j : Json) : Except String Nat :=
  match j with
  | .str s => .ok s.length
  | .arr xs => .ok xs.length
  | .obj fs => .ok fs.length
  | _ => .error "TypeError: object has no len"

/-- Python iteration over `j`: list elements, string characters, dict
keys; a `TypeError` otherwise. -/
def pyIter (j : Json) : Except String (List Json) :=
  match j with
  | .arr xs => .ok xs
  | .str s => .ok (s.data.map fun c => Json.str (String.mk [c]))
  | .obj fs => .ok (fs.map fun p => Json.str p.1)
  | _ => .error "TypeError: object is not iterable"

/-- The list comprehension `[f for f in fields if f not in j]`. -/
def pyFilterNotIn : List String → Json → Except String (List String)
  | [], _ => .ok []
  | f :: fs, j => do
    let b ← pyIn f j
    let rest ← pyFilterNotIn fs j
    .ok (if b then rest else f :: rest)

/-- Python `v[:8] + "..."`: only strings support the subsequent string
concatenation (`TypeError` otherwise). -/
def pySlice8Dots (j : Json) : Except String String :=
  match j with
  | .str s => .ok (s.take 8 ++ "...")
  | _ => .error "TypeError: unsupported slice"

/-- Python `repr` of a JSON value (used by `str` on containers). -/
def pyRepr : Json → String
  | .null => "None"
  | .bool true => "True"
  | .bool false => "False"
  | .num n => toString n
  | .str s => "\x27" ++ s ++ "\x27"
  | .arr xs => "[" ++ String.intercalate ", " (xs.attach.map fun x => pyRepr x.1) ++ "]"
  | .obj fs =>
    "\x7b" ++
      String.intercalate ", "
        (fs.attach.map fun p => "\x27" ++ p.1.1 ++ "\x27: " ++ pyRepr p.1.2) ++
    "\x7d"
decreasing_by
  · have h := List.sizeOf_lt_of_mem x.2
    simp_all
    omega
  · obtain ⟨⟨s, j⟩, hp⟩ := p
    have h := List.sizeOf_lt_of_mem hp
    simp_all
    omega

/-- Python `str` of a JSON value, as interpolated into f-strings. -/
def pyStr (j : Json) : String :=
  match j with
  | .str s => s
  | _ => pyRepr j

/-- `", ".join(xs)`. -/
def joinComma (xs : List String) : String :=
  String.intercalate ", " xs

/-- Python `s.rstrip('/')`. -/
def rstripSlash (s : String) : String :=
  String.mk (s.data.reverse.dropWhile (fun c => c = '/')).reverse

/-- Result of a validation test (`TestResult` dataclass). -/
structure TestResult where
  name : String
  passed : Bool
  message : String
  details : Option Json := none
deriving DecidableEq

/-- The mutable state of a `ConformanceTester` object: the stripped base
URL and the cached Provider Metadata (`self.metadata`). -/
structure TesterState where
  ngrok_url : String
  metadata : Option Json
deriving DecidableEq

/-- `ConformanceTester.__init__`: strips trailing slashes, no metadata yet. -/
def mkTester (url : String) : TesterState :=
  { ngrok_url := rstripSlash url, metadata := none }

/-- `self.discovery_url`. -/
def discovery_url (st : TesterState) : String :=
  st.ngrok_url ++ "/.well-known/openid-configuration"

/-- The required discovery-document fields (OpenID Connect Discovery). -/
def discoveryRequired : List String :=
  ["issuer",
   "authorization_endpoint",
   "token_endpoint",
   "jwks_uri",
   "response_types_supported",
   "subject_types_supported",
   "id_token_signing_alg_values_supported"]

/-- The body of `test_discovery` after the metadata assignment: field
presence, issuer comparison, success details.  Errors model exceptions
raised inside the `try` block. -/
def discoveryBody (st : TesterState) (doc : Json) : Except String TestResult := do
  let missing ← pyFilterNotIn discoveryRequired doc
  if !missing.isEmpty then
    return { name := "Discovery Endpoint", passed := false,
             message := "Missing required fields: " ++ joinComma missing,
             details := some doc }
  let issuer ← pyIndex doc "issuer"
  if issuer ≠ Json.str st.ngrok_url then
    return { name := "Discovery Endpoint", passed := false,
             message := "Issuer mismatch: " ++ pyStr issuer ++ " != " ++ st.ngrok_url,
             details := some doc }
  let auth ← pyIndex doc "authorization_endpoint"
  let tok ← pyIndex doc "token_endpoint"
  let jw ← pyIndex doc "jwks_uri"
  let reg ← pyGet doc "registration_endpoint" (Json.str "N/A")
  return { name := "Discovery Endpoint", passed := true,
           message := "All required fields present",
           details := some (Json.obj
             [("issuer", issuer),
              ("endpoints", Json.obj
                [("authorization", auth), ("token", tok),
                 ("jwks", jw), ("registration", reg)])]) }

/-- `ConformanceTester.test_discovery`, with the HTTP exchange for the
discovery document abstracted as `resp`.  On a successful fetch the body
is cached in `self.metadata` before any validation happens. -/
def test_discovery (st : TesterState) (resp : Except String Json) :
    TesterState × TestResult :=
  match resp with
  | .error e =>
    (st, { name := "Discovery Endpoint", passed := false, message := "Failed: " ++ e })
  | .ok doc =>
    match discoveryBody { st with metadata := some doc } doc with
    | .ok r => ({ st with metadata := some doc }, r)
    | .error e =>
      ({ st with metadata := some doc },
       { name := "Discovery Endpoint", passed := false, message := "Failed: " ++ e })

/-- Required fields of each JWKS key. -/
def jwksKeyRequired : List String := ["kty", "use", "kid"]

/-- The `for i, key in enumerate(jwks["keys"])` validation loop:
returns the failure for the first key missing a required field, if any. -/
def jwksCheckKeys : Nat → List Json → Except String (Option TestResult)
  | _, [] => .ok none
  | i, k :: rest => do
    let missing ← pyFilterNotIn jwksKeyRequired k
    if !missing.isEmpty then
      return some { name := "JWKS Endpoint", passed := false,
                    message := "Key " ++ toString i ++ " missing fields: " ++ joinComma missing }
    jwksCheckKeys (i + 1) rest

/-- Fetching and validating the JWKS document itself (everything in
`test_jwks` after the `jwks_uri` has been found truthy). -/
def jwksFetch (resp : Except String Json) : Except String TestResult := do
  let jwks ← resp
  if !(← pyIn "keys" jwks) then
    return { name := "JWKS Endpoint", passed := false,
             message := "JWKS missing \x27keys\x27 field" }
  let keysVal ← pyIndex jwks "keys"
  if (← pyLen keysVal) == 0 then
    return { name := "JWKS Endpoint", passed := false, message := "JWKS has no keys" }
  let elems ← pyIter keysVal
  match ← jwksCheckKeys 0 elems with
  | some r => return r
  | none =>
    let ktys ← elems.mapM (fun k => pyGet k "kty" Json.null)
    let algs ← elems.mapM (fun k => pyGet k "alg" Json.null)
    let n ← pyLen keysVal
    return { name := "JWKS Endpoint", passed := true,
             message := "Valid JWKS with " ++ toString n ++ " key(s)",
             details := some (Json.obj
               [("key_count", Json.num n),
                ("key_types", Json.arr ktys),
                ("algorithms", Json.arr algs)]) }

/-- The body of `test_jwks` given truthy cached metadata. -/
def jwksBody (md : Json) (resp : Except String Json) : Except String TestResult := do
  let jwks_uri ← pyGet md "jwks_uri" Json.null
  if !truthy jwks_uri then
    return { name := "JWKS Endpoint", passed := false, message := "No jwks_uri in discovery" }
  jwksFetch resp

/-- `ConformanceTester.test_jwks`. -/
def test_jwks (st : TesterState) (resp : Except String Json) :
    TesterState × TestResult :=
  (st,
   match st.metadata with
   | none => { name := "JWKS Endpoint", passed := false, message := "Discovery must pass first" }
   | some md =>
     if !truthy md then
       { name := "JWKS Endpoint", passed := false, message := "Discovery must pass first" }
     else
       match jwksBody md resp with
       | .ok r => r
       | .error e =>
         { name := "JWKS Endpoint", passed := false, message := "Failed: " ++ e })

/-- The body of `test_registration` given truthy cached metadata. -/
def regBody (md : Json) (resp : Except String Json) : Except String TestResult := do
  let regEp ← pyGet md "registration_endpoint" Json.null
  if !truthy regEp then
    return { name := "Registration Endpoint", passed := false,
             message := "No registration_endpoint in discovery" }
  let client ← resp
  let missing ← pyFilterNotIn ["client_id"] client
  if !missing.isEmpty then
    return { name := "Registration Endpoint", passed := false,
             message := "Response missing fields: " ++ joinComma missing,
             details := some client }
  let authMethod ← pyGet client "token_endpoint_auth_method" Json.null
  if authMethod ≠ Json.str "none" then
    if !(← pyIn "client_secret" client) then
      return { name := "Registration Endpoint", passed := false,
               message := "Missing client_secret for confidential client",
               details := some client }
  let cid ← pyIndex client "client_id"
  let cidTrunc ← pySlice8Dots cid
  let hasSecret ← pyIn "client_secret" client
  let hasTok ← pyIn "registration_access_token" client
  return { name := "Registration Endpoint", passed := true,
           message := "Client registered successfully",
           details := some (Json.obj
             [("client_id", Json.str cidTrunc),
              ("has_secret", Json.bool hasSecret),
              ("has_registration_token", Json.bool hasTok)]) }

/-- `ConformanceTester.test_registration`. -/
def test_registration (st : TesterState) (resp : Except String Json) :
    TesterState × TestResult :=
  (st,
   match st.metadata with
   | none =>
     { name := "Registration Endpoint", passed := false, message := "Discovery must pass first" }
   | some md =>
     if !truthy md then
       { name := "Registration Endpoint", passed := false, message := "Discovery must pass first" }
     else
       match regBody md resp with
       | .ok r => r
       | .error e =>
         { name := "Registration Endpoint", passed := false, message := "Failed: " ++ e })

/-- The body of `test_registration_crud` given truthy cached metadata.
`createR`, `readR`, `updateR` are the POST/GET/PUT responses; `delR` is
the DELETE status code (no `raise_for_status` is called on the DELETE). -/
def crudBody (md : Json) (createR readR updateR : Except String Json)
    (delR : Except String Nat) : Except String TestResult := do
  let regEp ← pyGet md "registration_endpoint" Json.null
  if !truthy regEp then
    return { name := "Registration CRUD", passed := false,
             message := "No registration_endpoint in discovery" }
  let client ← createR
  let client_id ← pyIndex client "client_id"
  let reg_token ← pyGet client "registration_access_token" Json.null
  if !truthy reg_token then
    return { name := "Registration CRUD", passed := false,
             message := "No registration_access_token in response" }
  let retrieved ← readR
  let rid ← pyIndex retrieved "client_id"
  if rid ≠ client_id then
    return { name := "Registration CRUD", passed := false,
             message := "Retrieved client_id mismatch" }
  let updated ← updateR
  let ruris ← pyIndex updated "redirect_uris"
  if (← pyLen ruris) ≠ 2 then
    return { name := "Registration CRUD", passed := false,
             message := "Client update failed" }
  let status ← delR
  if status ≠ 204 then
    return { name := "Registration CRUD", passed := false,
             message := "Delete returned " ++ toString status ++ ", expected 204" }
  return { name := "Registration CRUD", passed := true,
           message := "All CRUD operations successful",
           details := some (Json.obj
             [("create", Json.str "✓"), ("read", Json.str "✓"),
              ("update", Json.str "✓"), ("delete", Json.str "✓")]) }

/-- `ConformanceTester.test_registration_crud`. -/
def test_registration_crud (st : TesterState)
    (createR readR updateR : Except String Json) (delR : Except String Nat) :
    TesterState × TestResult :=
  (st,
   match st.metadata with
   | none =>
     { name := "Registration CRUD", passed := false, message := "Discovery must pass first" }
   | some md =>
     if !truthy md then
       { name := "Registration CRUD", passed := false, message := "Discovery must pass first" }
     else
       match crudBody md createR readR updateR delR with
       | .ok r => r
       | .error e =>
         { name := "Registration CRUD", passed := false, message := "Failed: " ++ e })

/-- The accumulated compliance-issue list of `test_metadata_compliance`,
in source order.  Each item appends its message when its condition is
violated; a raised exception (non-dict metadata or a non-iterable
supported-value) aborts the whole computation. -/
def complianceIssues (md : Json) : Except String (List String) := do
  let rts ← pyGet md "response_types_supported" (Json.arr [])
  let b1 ← pyIn "code" rts
  let grant_types ← pyGet md "grant_types_supported" (Json.arr [])
  let b2 ← pyIn "authorization_code" grant_types
  let auth_methods ← pyGet md "token_endpoint_auth_methods_supported" (Json.arr [])
  let scopes ← pyGet md "scopes_supported" Json.null
  let scopeIssues ←
    if !truthy scopes then
      pure ["No scopes_supported"]
    else do
      let sv ← pyIndex md "scopes_supported"
      let b ← pyIn "openid" sv
      pure (if b then [] else ["Missing \x27openid\x27 scope"])
  let subject_types ← pyGet md "subject_types_supported" (Json.arr [])
  let algs ← pyGet md "id_token_signing_alg_values_supported" (Json.arr [])
  let b6 ← pyIn "RS256" algs
  return (if b1 then [] else ["Missing \x27code\x27 in response_types_supported"]) ++
         (if b2 then [] else ["Missing \x27authorization_code\x27 in grant_types_supported"]) ++
         (if truthy auth_methods then [] else ["No token_endpoint_auth_methods_supported"]) ++
         scopeIssues ++
         (if truthy subject_types then [] else ["No subject_types_supported"]) ++
         (if b6 then [] else ["Missing \x27RS256\x27 in id_token_signing_alg_values_supported"])

/-- The body of `test_metadata_compliance` given truthy cached metadata:
accumulate all issues, then decide pass/fail. -/
def complianceBody (md : Json) : Except String TestResult := do
  let issues ← complianceIssues md
  if !issues.isEmpty then
    return { name := "Metadata Compliance", passed := false,
             message := "Found " ++ toString issues.length ++ " compliance issue(s)",
             details := some (Json.obj [("issues", Json.arr (issues.map Json.str))]) }
  let rts ← pyIndex md "response_types_supported"
  let gts ← pyGet md "grant_types_supported" Json.null
  let scopes ← pyGet md "scopes_supported" Json.null
  let sts ← pyIndex md "subject_types_supported"
  return { name := "Metadata Compliance", passed := true,
           message := "Metadata is OpenID Connect compliant",
           details := some (Json.obj
             [("response_types", rts), ("grant_types", gts),
              ("scopes", scopes), ("subject_types", sts)]) }

/-- `ConformanceTester.test_metadata_compliance` (no network access). -/
def test_metadata_compliance (st : TesterState) : TesterState × TestResult :=
  (st,
   match st.metadata with
   | none =>
     { name := "Metadata Compliance", passed := false, message := "Discovery must pass first" }
   | some md =>
     if !truthy md then
       { name := "Metadata Compliance", passed := false, message := "Discovery must pass first" }
     else
       match complianceBody md with
       | .ok r => r
       | .error e =>
         { name := "Metadata Compliance", passed := false, message := "Failed: " ++ e })

/-- The oracle of HTTP outcomes consumed by one full run: one entry per
request site of the script. -/
structure Env where
  discovery : Except String Json
  jwks : Except String Json
  registration : Except String Json
  crudCreate : Except String Json
  crudRead : Except String Json
  crudUpdate : Except String Json
  crudDelete : Except String Nat

/-- `ConformanceTester.run_all_tests`: Discovery gates the remaining four
checks; after the gate all four run unconditionally, threading the tester
state through each. -/
def run_all_tests (st : TesterState) (env : Env) : TesterState × List TestResult :=
  let (st1, r1) := test_discovery st env.discovery
  if !r1.passed then
    (st1, [r1])
  else
    let (st2, r2) := test_jwks st1 env.jwks
    let (st3, r3) := test_registration st2 env.registration
    let (st4, r4) := test_registration_crud st3 env.crudCreate env.crudRead env.crudUpdate env.crudDelete
    let (st5, r5) := test_metadata_compliance st4
    (st5, [r1, r2, r3, r4, r5])

/-- The exit code computed by `print_results`: 0 when the passed count
equals the total count, 1 otherwise. -/
def print_results_exit (results : List TestResult) : Nat :=
  let passed_count := (results.filter (fun r => r.passed)).length
  let total_count := results.length
  if passed_count == total_count then 0 else 1

/-- The usage text printed by `main` when the URL argument is missing. -/
def usageLines : List String :=
  ["Usage: ./conformance_validator.py <ngrok-url>",
   "",
   "Example:",
   "  ./conformance_validator.py https://abc123.ngrok.io"]

/-- Observable outcome of one `main` invocation: the process exit code,
the usage text (empty unless the argument was missing), and the test
results that were produced (empty when no test ran). -/
structure MainOutcome where
  exitCode : Nat
  usageOut : List String
  results : List TestResult
deriving DecidableEq

/-- `main`: `argv` includes the program name at position 0.  With fewer
than two entries, print usage and exit 1 without consulting the network
oracle; otherwise strip the URL, run all tests and exit via
`print_results`. -/
def main_model (argv : List String) (env : Env) : MainOutcome :=
  match argv with
  | _prog :: url :: _rest =>
    let ngrok_url := rstripSlash url
    let st := mkTester ngrok_url
    let results := (run_all_tests st env).2
    { exitCode := print_results_exit results, usageOut := [], results := results }
  | _ => { exitCode := 1, usageOut := usageLines, results := [] }

/-! ### Helper lemmas -/

/-- On a dict, the `not in` comprehension is a pure filter on key absence. -/
theorem pyFilterNotIn_obj (fields : List String) (fs : List (String × Json)) :
    pyFilterNotIn fields (Json.obj fs) =
      .ok (fields.filter fun f => (List.lookup f fs).isNone) := by
  induction fields with
  | nil => rfl
  | cons f rest ih =>
    simp only [pyFilterNotIn, pyIn, ih, List.filter_cons, Bind.bind, Except.bind]
    cases h : List.lookup f fs <;> simp [h]

/-- Two strings with distinct prefixes of the same length are distinct. -/
theorem append_ne_append_of_take_ne (p q a b : String) (n : Nat)
    (hp : n ≤ p.data.length) (hq : n ≤ q.data.length)
    (hne : p.data.take n ≠ q.data.take n) : p ++ a ≠ q ++ b := by
  intro hc
  apply hne
  have hd : (p ++ a).data = (q ++ b).data := by rw [hc]
  rw [String.data_append, String.data_append] at hd
  have h1 : (p.data ++ a.data).take n = p.data.take n :=
    List.take_append_of_le_length hp
  have h2 : (q.data ++ b.data).take n = q.data.take n :=
    List.take_append_of_le_length hq
  rw [← h1, ← h2, hd]

/-- A string extending a prefix differs from any string not carrying it. -/
theorem append_ne_of_take_ne (p a t : String) (h : t.data.take p.data.length ≠ p.data) :
    p ++ a ≠ t := by
  intro hc
  apply h
  rw [← hc, String.data_append, List.take_left]

/-- Every failure produced by the JWKS key loop is named after the JWKS
check. -/
theorem jwksCheckKeys_name (i : Nat) (ks : List Json) (r : TestResult)
    (h : jwksCheckKeys i ks = .ok (some r)) : r.name = "JWKS Endpoint" := by
  induction ks generalizing i with
  | nil => simp [jwksCheckKeys] at h
  | cons k rest ih =>
    simp only [jwksCheckKeys, Bind.bind, Except.bind] at h
    split at h
    · simp at h
    · split at h
      · simp only [pure, Except.pure, Except.ok.injEq, Option.some.injEq] at h
        rw [← h]
      · exact ih _ h

/-- Every failure produced by the JWKS key loop has a message starting
with the key index marker. -/
theorem jwksCheckKeys_message (i : Nat) (ks : List Json) (r : TestResult)
    (h : jwksCheckKeys i ks = .ok (some r)) : ∃ s, r.message = "Key " ++ s := by
  induction ks generalizing i with
  | nil => simp [jwksCheckKeys] at h
  | cons k rest ih =>
    simp only [jwksCheckKeys, Bind.bind, Except.bind] at h
    split at h
    · simp at h
    · split at h
      · simp only [pure, Except.pure, Except.ok.injEq, Option.some.injEq] at h
        rw [← h]
        simp only [String.append_assoc]
        exact ⟨_, rfl⟩
      · exact ih _ h

/-- Every result of the JWKS fetch-and-validate stage is named after the
JWKS check. -/
theorem jwksFetch_name (resp : Except String Json) (r : TestResult)
    (h : jwksFetch resp = .ok r) : r.name = "JWKS Endpoint" := by
  unfold jwksFetch at h
  simp only [Bind.bind, Except.bind, pure, Except.pure] at h
  iterate 12 (all_goals try split at h)
  all_goals (try (cases h))
  all_goals (try rfl)
  all_goals (exact jwksCheckKeys_name _ _ _ (by assumption))

/-- Every result of the JWKS body is named after the JWKS check. -/
theorem jwksBody_name (md : Json) (resp : Except String Json) (r : TestResult)
    (h : jwksBody md resp = .ok r) : r.name = "JWKS Endpoint" := by
  unfold jwksBody at h
  simp only [Bind.bind, Except.bind, pure, Except.pure] at h
  iterate 4 (all_goals try split at h)
  all_goals (try (cases h))
  all_goals (try rfl)
  all_goals (exact jwksFetch_name _ _ (by assumption))

/-- The JWKS check's result is always named "JWKS Endpoint". -/
theorem test_jwks_name (st : TesterState) (resp : Except String Json) :
    ((test_jwks st resp).2).name = "JWKS Endpoint" := by
  unfold test_jwks
  iterate 4 (all_goals try split)
  all_goals (try rfl)
  all_goals (exact jwksBody_name _ _ _ (by assumption))

/-- Every result of the discovery body is named after the Discovery
check. -/
theorem discoveryBody_name (st : TesterState) (doc : Json) (r : TestResult)
    (h : discoveryBody st doc = .ok r) : r.name = "Discovery Endpoint" := by
  unfold discoveryBody at h
  simp only [Bind.bind, Except.bind, pure, Except.pure] at h
  iterate 14 (all_goals try split at h)
  all_goals (try (cases h))
  all_goals (try rfl)

/-- The Discovery check's result is always named "Discovery Endpoint". -/
theorem test_discovery_name (st : TesterState) (resp : Except String Json) :
    ((test_discovery st resp).2).name = "Discovery Endpoint" := by
  unfold test_discovery
  iterate 3 (all_goals try split)
  all_goals (try rfl)
  all_goals (exact discoveryBody_name _ _ _ (by assumption))

/-- Every result of the registration body is named after the
Registration check. -/
theorem regBody_name (md : Json) (resp : Except String Json) (r : TestResult)
    (h : regBody md resp = .ok r) : r.name = "Registration Endpoint" := by
  unfold regBody at h
  simp only [Bind.bind, Except.bind, pure, Except.pure] at h
  iterate 14 (all_goals try split at h)
  all_goals (try (cases h))
  all_goals (try rfl)

/-- The Registration check's result is always named
"Registration Endpoint". -/
theorem test_registration_name (st : TesterState) (resp : Except String Json) :
    ((test_registration st resp).2).name = "Registration Endpoint" := by
  unfold test_registration
  iterate 4 (all_goals try split)
  all_goals (try rfl)
  all_goals (exact regBody_name _ _ _ (by assumption))

/-- Every result of the CRUD body is named after the Registration CRUD
check. -/
theorem crudBody_name (md : Json) (createR readR updateR : Except String Json)
    (delR : Except String Nat) (r : TestResult)
    (h : crudBody md createR readR updateR delR = .ok r) :
    r.name = "Registration CRUD" := by
  unfold crudBody at h
  simp only [Bind.bind, Except.bind, pure, Except.pure] at h
  iterate 16 (all_goals try split at h)
  all_goals (try (cases h))
  all_goals (try rfl)

/-- The Registration CRUD check's result is always named
"Registration CRUD". -/
theorem test_registration_crud_name (st : TesterState)
    (createR readR updateR : Except String Json) (delR : Except String Nat) :
    ((test_registration_crud st createR readR updateR delR).2).name =
      "Registration CRUD" := by
  unfold test_registration_crud
  iterate 4 (all_goals try split)
  all_goals (try rfl)
  all_goals (exact crudBody_name _ _ _ _ _ _ (by assumption))

/-- Every result of the compliance body is named after the Metadata
Compliance check. -/
theorem complianceBody_name (md : Json) (r : TestResult)
    (h : complianceBody md = .ok r) : r.name = "Metadata Compliance" := by
  unfold complianceBody at h
  simp only [Bind.bind, Except.bind, pure, Except.pure] at h
  iterate 14 (all_goals try split at h)
  all_goals (try (cases h))
  all_goals (try rfl)

/-- The Metadata Compliance check's result is always named
"Metadata Compliance". -/
theorem test_metadata_compliance_name (st : TesterState) :
    ((test_metadata_compliance st).2).name = "Metadata Compliance" := by
  unfold test_metadata_compliance
  iterate 4 (all_goals try split)
  all_goals (try rfl)
  all_goals (exact complianceBody_name _ _ (by assumption))

/-- The reporter's exit code is 0 exactly when every collected result
passed. -/
theorem print_results_exit_eq_zero (rs : List TestResult) :
    print_results_exit rs = 0 ↔ ∀ r ∈ rs, r.passed = true := by
  simp only [print_results_exit]
  by_cases h : (rs.filter (fun r => r.passed)).length = rs.length
  · simp only [h, beq_self_eq_true, if_true, true_iff]
    exact List.filter_length_eq_length.mp h
  · have hb : ((rs.filter (fun r => r.passed)).length == rs.length) = false := by
      simpa using h
    simp only [hb, Bool.false_eq_true, if_false]
    constructor
    · intro hc; cases hc
    · intro hall
      exact absurd (List.filter_length_eq_length.mpr hall) h

/-- The reporter's exit code is 1 exactly when some collected result
failed. -/
theorem print_results_exit_eq_one (rs : List TestResult) :
    print_results_exit rs = 1 ↔ ∃ r ∈ rs, r.passed = false := by
  simp only [print_results_exit]
  by_cases h : (rs.filter (fun r => r.passed)).length = rs.length
  · simp only [h, beq_self_eq_true, if_true]
    have hall := List.filter_length_eq_length.mp h
    constructor
    · intro hc; cases hc
    · rintro ⟨r, hr, hf⟩
      have := hall r hr
      rw [hf] at this
      cases this
  · have hb : ((rs.filter (fun r => r.passed)).length == rs.length) = false := by
      simpa using h
    simp only [hb, Bool.false_eq_true, if_false]
    constructor
    · intro _
      by_contra hno
      push_neg at hno
      apply h
      apply List.filter_length_eq_length.mpr
      intro r hr
      have hne := hno r hr
      cases hp : r.passed
      · exact absurd hp hne
      · rfl
    · intro _
      trivial

/-! ### Concrete fixtures used by witnesses and counterexamples -/

/-- A fully compliant discovery document for `https://op.example`. -/
def exGoodDoc : Json := Json.obj
  [("issuer", Json.str "https://op.example"),
   ("authorization_endpoint", Json.str "https://op.example/auth"),
   ("token_endpoint", Json.str "https://op.example/token"),
   ("jwks_uri", Json.str "https://op.example/jwks"),
   ("response_types_supported", Json.arr [Json.str "code"]),
   ("subject_types_supported", Json.arr [Json.str "public"]),
   ("id_token_signing_alg_values_supported", Json.arr [Json.str "RS256"]),
   ("registration_endpoint", Json.str "https://op.example/reg"),
   ("grant_types_supported", Json.arr [Json.str "authorization_code"]),
   ("token_endpoint_auth_methods_supported", Json.arr [Json.str "client_secret_basic"]),
   ("scopes_supported", Json.arr [Json.str "openid"])]

/-- A well-formed JWKS response with one complete key. -/
def exGoodJwks : Json := Json.obj
  [("keys", Json.arr
    [Json.obj [("kty", Json.str "RSA"), ("use", Json.str "sig"), ("kid", Json.str "k1")]])]

/-- A well-formed registration response. -/
def exGoodClient : Json := Json.obj
  [("client_id", Json.str "abcdefghijk"),
   ("client_secret", Json.str "sec"),
   ("registration_access_token", Json.str "tok"),
   ("token_endpoint_auth_method", Json.str "client_secret_basic")]

/-- A well-formed PUT response carrying two redirect URIs. -/
def exGoodUpdated : Json := Json.obj
  [("client_id", Json.str "abcdefghijk"),
   ("redirect_uris", Json.arr [Json.str "https://example.com/callback",
                               Json.str "https://example.com/cb2"])]

/-- An oracle on which every check passes. -/
def exGoodEnv : Env :=
  { discovery := .ok exGoodDoc, jwks := .ok exGoodJwks,
    registration := .ok exGoodClient, crudCreate := .ok exGoodClient,
    crudRead := .ok exGoodClient, crudUpdate := .ok exGoodUpdated,
    crudDelete := .ok 204 }

/-- An oracle whose discovery exchange raises. -/
def exBadEnv : Env :=
  { exGoodEnv with discovery := .error "connection refused" }

/-- A tester pointed at the matching issuer. -/
def exTester : TesterState := mkTester "https://op.example"

/-! ### Claims -/

/-- C1: the orchestrator's gate: if the Discovery check fails,
`run_all_tests` returns exactly the singleton Discovery result; if
Discovery succeeds, the list has length exactly 5, holding the
Discovery, JWKS, Registration, Registration-CRUD and
Metadata-Compliance results in that order, regardless of downstream
outcomes. -/
theorem C1_run_all_tests_gate (st : TesterState) (env : Env) :
    ((test_discovery st env.discovery).2.passed = false →
      (run_all_tests st env).2 = [(test_discovery st env.discovery).2]) ∧
    ((test_discovery st env.discovery).2.passed = true →
      (run_all_tests st env).2.length = 5 ∧
      (run_all_tests st env).2.map TestResult.name =
        ["Discovery Endpoint", "JWKS Endpoint", "Registration Endpoint",
         "Registration CRUD", "Metadata Compliance"]) := by
  constructor
  · intro h
    simp [run_all_tests, h]
  · intro h
    refine ⟨by simp [run_all_tests, h], ?_⟩
    simp [run_all_tests, h, test_discovery_name, test_jwks_name, test_registration_name,
          test_registration_crud_name, test_metadata_compliance_name]

/-- Witness for C1 at concrete oracles: a failing Discovery yields the
singleton list, a passing one yields all five results in order. -/
theorem C1_run_all_tests_gate_witness :
    (run_all_tests exTester exBadEnv).2 = [(test_discovery exTester exBadEnv.discovery).2] ∧
    (run_all_tests exTester exGoodEnv).2.length = 5 ∧
    (run_all_tests exTester exGoodEnv).2.map TestResult.name =
      ["Discovery Endpoint", "JWKS Endpoint", "Registration Endpoint",
       "Registration CRUD", "Metadata Compliance"] :=
  ⟨(C1_run_all_tests_gate exTester exBadEnv).1 rfl,
   (C1_run_all_tests_gate exTester exGoodEnv).2 rfl⟩

/-- C9: the cached Provider Metadata is write-once: every check other
than Discovery returns the tester state unchanged, and after a full run
the metadata equals exactly what Discovery cached. -/
theorem C9_metadata_write_once (st : TesterState) (env : Env) :
    (test_jwks st env.jwks).1 = st ∧
    (test_registration st env.registration).1 = st ∧
    (test_registration_crud st env.crudCreate env.crudRead env.crudUpdate env.crudDelete).1 = st ∧
    (test_metadata_compliance st).1 = st ∧
    (run_all_tests st env).1.metadata = (test_discovery st env.discovery).1.metadata := by
  refine ⟨rfl, rfl, rfl, rfl, ?_⟩
  by_cases h : (test_discovery st env.discovery).2.passed
  · simp [run_all_tests, h, test_jwks, test_registration, test_registration_crud,
          test_metadata_compliance]
  · simp [run_all_tests, h]

/-- C2: with a URL argument, the exit code is 0 iff every check that ran
passed and 1 iff some check that ran failed; with the argument missing,
the usage text goes to standard output, the exit code is 1, no test runs
and the network oracle is never consulted. -/
theorem C2_exit_code (argv : List String) (env : Env) :
    (∀ prog url rest, argv = prog :: url :: rest →
      (((main_model argv env).exitCode = 0 ↔
          ∀ r ∈ (main_model argv env).results, r.passed = true) ∧
       ((main_model argv env).exitCode = 1 ↔
          ∃ r ∈ (main_model argv env).results, r.passed = false))) ∧
    (argv.length < 2 →
      ((main_model argv env).usageOut = usageLines ∧
       (main_model argv env).exitCode = 1 ∧
       (main_model argv env).results = [] ∧
       ∀ env2, main_model argv env2 = main_model argv env)) := by
  constructor
  · rintro prog url rest rfl
    constructor
    · simpa [main_model] using
        print_results_exit_eq_zero (run_all_tests (mkTester (rstripSlash url)) env).2
    · simpa [main_model] using
        print_results_exit_eq_one (run_all_tests (mkTester (rstripSlash url)) env).2
  · intro hlen
    match argv, hlen with
    | [], _ => exact ⟨rfl, rfl, rfl, fun _ => rfl⟩
    | [p], _ => exact ⟨rfl, rfl, rfl, fun _ => rfl⟩

/-- Witness for C2 at concrete inputs: a fully passing run exits 0, a
run with a failing check exits 1, and a missing argument prints usage
and exits 1. -/
theorem C2_exit_code_witness :
    ((main_model ["prog", "https://op.example"] exGoodEnv).exitCode = 0 ↔
       ∀ r ∈ (main_model ["prog", "https://op.example"] exGoodEnv).results, r.passed = true) ∧
    ((main_model ["prog", "https://op.example"] exBadEnv).exitCode = 1 ↔
       ∃ r ∈ (main_model ["prog", "https://op.example"] exBadEnv).results, r.passed = false) ∧
    (main_model ["prog"] exGoodEnv).usageOut = usageLines ∧
    (main_model ["prog"] exGoodEnv).exitCode = 1 :=
  ⟨((C2_exit_code ["prog", "https://op.example"] exGoodEnv).1 "prog" "https://op.example" []
      rfl).1,
   ((C2_exit_code ["prog", "https://op.example"] exBadEnv).1 "prog" "https://op.example" []
      rfl).2,
   ((C2_exit_code ["prog"] exGoodEnv).2 (by decide)).1,
   ((C2_exit_code ["prog"] exGoodEnv).2 (by decide)).2.1⟩

/-- C3: the Metadata-Compliance check accumulates all violations before
deciding: on cached metadata whose scopes lack "openid" and whose
signing algorithms lack "RS256" while every other battery item is
satisfied, the check fails with exactly these two issues, the message
reporting the count and the details carrying the full list. -/
theorem C3_compliance_accumulates (u : String) (mfs : List (String × Json)) (sv : Json)
    (h1 : pyIn "code" ((List.lookup "response_types_supported" mfs).getD (Json.arr [])) =
            .ok true)
    (h2 : pyIn "authorization_code"
            ((List.lookup "grant_types_supported" mfs).getD (Json.arr [])) = .ok true)
    (h3 : truthy ((List.lookup "token_endpoint_auth_methods_supported" mfs).getD
            (Json.arr [])) = true)
    (h4 : List.lookup "scopes_supported" mfs = some sv)
    (h5 : truthy sv = true)
    (h6 : pyIn "openid" sv = .ok false)
    (h7 : truthy ((List.lookup "subject_types_supported" mfs).getD (Json.arr [])) = true)
    (h8 : pyIn "RS256"
            ((List.lookup "id_token_signing_alg_values_supported" mfs).getD (Json.arr [])) =
            .ok false) :
    (test_metadata_compliance { ngrok_url := u, metadata := some (Json.obj mfs) }).2 =
      { name := "Metadata Compliance", passed := false,
        message := "Found 2 compliance issue(s)",
        details := some (Json.obj [("issues", Json.arr
          [Json.str "Missing \x27openid\x27 scope",
           Json.str "Missing \x27RS256\x27 in id_token_signing_alg_values_supported"])]) } := by
  have hne : mfs ≠ [] := by
    intro hc
    rw [hc] at h4
    cases h4
  have htr : truthy (Json.obj mfs) = true := by
    cases mfs with
    | nil => exact absurd rfl hne
    | cons a l => rfl
  simp only [test_metadata_compliance, htr, Bool.not_true, Bool.false_eq_true, if_false]
  simp only [complianceBody, complianceIssues, pyGet, pyIndex, h4, Bind.bind, Except.bind,
             h1, h2, h3, h5, h6, h7, h8, Bool.not_true, Bool.false_eq_true, if_false,
             pure, Except.pure]
  simp [h5]
  rfl

/-- Metadata satisfying every battery item except "openid" in scopes and
"RS256" in signing algorithms. -/
def exC3Fields : List (String × Json) :=
  [("response_types_supported", Json.arr [Json.str "code"]),
   ("grant_types_supported", Json.arr [Json.str "authorization_code"]),
   ("token_endpoint_auth_methods_supported", Json.arr [Json.str "client_secret_basic"]),
   ("scopes_supported", Json.arr [Json.str "profile"]),
   ("subject_types_supported", Json.arr [Json.str "public"]),
   ("id_token_signing_alg_values_supported", Json.arr [Json.str "ES256"])]

/-- Witness for C3 at a concrete metadata mapping. -/
theorem C3_compliance_accumulates_witness :
    (test_metadata_compliance
        { ngrok_url := "https://op.example", metadata := some (Json.obj exC3Fields) }).2 =
      { name := "Metadata Compliance", passed := false,
        message := "Found 2 compliance issue(s)",
        details := some (Json.obj [("issues", Json.arr
          [Json.str "Missing \x27openid\x27 scope",
           Json.str "Missing \x27RS256\x27 in id_token_signing_alg_values_supported"])]) } :=
  C3_compliance_accumulates "https://op.example" exC3Fields
    (Json.arr [Json.str "profile"]) rfl rfl rfl rfl rfl rfl rfl rfl

/-- The required fields absent from one JWKS key. -/
def keyMissing (k : List (String × Json)) : List String :=
  jwksKeyRequired.filter (fun f => (List.lookup f k).isNone)

/-- The key loop stops at the first key with missing fields, reporting
its absolute index and exactly its missing fields. -/
theorem jwksCheckKeys_firstFail (n : Nat) (ks : List (List (String × Json))) (i : Nat)
    (hi : i < ks.length) (hmiss : keyMissing (ks.getD i []) ≠ [])
    (hbefore : ∀ j, j < i → keyMissing (ks.getD j []) = []) :
    jwksCheckKeys n (ks.map Json.obj) =
      .ok (some { name := "JWKS Endpoint", passed := false,
                  message := "Key " ++ toString (n + i) ++ " missing fields: " ++
                             joinComma (keyMissing (ks.getD i [])) }) := by
  induction ks generalizing n i with
  | nil => simp at hi
  | cons k rest ih =>
    cases i with
    | zero =>
      simp only [List.getD_cons_zero] at hmiss ⊢
      have hne : (keyMissing k).isEmpty = false := by
        cases hk : keyMissing k
        · exact absurd hk hmiss
        · rfl
      simp only [jwksCheckKeys, List.map_cons, pyFilterNotIn_obj, Bind.bind, Except.bind,
                 keyMissing] at hne ⊢
      simp [hne, Nat.add_zero, pure, Except.pure]
    | succ i2 =>
      have h0 : keyMissing k = [] := by
        have hb := hbefore 0 (Nat.succ_pos i2)
        simpa using hb
      have harith : n + 1 + i2 = n + (i2 + 1) := by omega
      have hrec := ih (n + 1) i2 (by simpa using Nat.lt_of_succ_lt_succ hi)
        (by simpa using hmiss) (fun j hj => by simpa using hbefore (j + 1) (by omega))
      simp only [jwksCheckKeys, List.map_cons, pyFilterNotIn_obj, Bind.bind, Except.bind]
      rw [show (jwksKeyRequired.filter fun f => (List.lookup f k).isNone) = [] from h0]
      simp only [List.isEmpty_nil, Bool.not_true, Bool.false_eq_true, if_false]
      rw [harith] at hrec
      simpa using hrec

/-- C4: the JWKS check is fail-fast over key elements: for any keys
sequence, the first (lowest-index) key missing any of kty, use, kid
fails the whole check, the message naming that key's index and exactly
its missing fields. -/
theorem C4_jwks_fail_fast (u : String) (mfs : List (String × Json)) (uri : Json)
    (ks : List (List (String × Json))) (i : Nat)
    (hmd : List.lookup "jwks_uri" mfs = some uri)
    (huri : truthy uri = true)
    (hi : i < ks.length)
    (hmiss : keyMissing (ks.getD i []) ≠ [])
    (hbefore : ∀ j, j < i → keyMissing (ks.getD j []) = []) :
    (test_jwks { ngrok_url := u, metadata := some (Json.obj mfs) }
        (.ok (Json.obj [("keys", Json.arr (ks.map Json.obj))]))).2 =
      { name := "JWKS Endpoint", passed := false,
        message := "Key " ++ toString i ++ " missing fields: " ++
                   joinComma (keyMissing (ks.getD i [])) } := by
  have hne : mfs ≠ [] := by
    intro hc
    rw [hc] at hmd
    cases hmd
  have htr : truthy (Json.obj mfs) = true := by
    cases mfs with
    | nil => exact absurd rfl hne
    | cons a l => rfl
  have hks : ks ≠ [] := by
    intro hc
    rw [hc] at hi
    simp at hi
  have hlen : ((ks.map Json.obj).length == 0) = false := by
    cases ks with
    | nil => exact absurd rfl hks
    | cons a l => simp
  have hloop := jwksCheckKeys_firstFail 0 ks i hi hmiss hbefore
  rw [Nat.zero_add] at hloop
  simp only [test_jwks, htr, Bool.not_true, Bool.false_eq_true, if_false]
  simp only [jwksBody, jwksFetch, pyGet, hmd, Option.getD_some, Bind.bind, Except.bind,
             huri, Bool.not_true, Bool.false_eq_true, if_false, pyIn, pyIndex, pyLen,
             pyIter, List.lookup_cons, hlen, hloop, pure, Except.pure]
  simp [hloop, hks]

/-- Keys fixture: the first key complete, the second missing `kid`. -/
def exC4Keys : List (List (String × Json)) :=
  [[("kty", Json.str "RSA"), ("use", Json.str "sig"), ("kid", Json.str "k1")],
   [("kty", Json.str "RSA"), ("use", Json.str "sig")]]

/-- Witness for C4: on keys `[{kty,use,kid}, {kty,use}]` the failure
names index 1 and the single field kid. -/
theorem C4_jwks_fail_fast_witness :
    (test_jwks { ngrok_url := "https://op.example",
                 metadata := some (Json.obj
                   [("jwks_uri", Json.str "https://op.example/jwks")]) }
        (.ok (Json.obj [("keys", Json.arr (exC4Keys.map Json.obj))]))).2 =
      { name := "JWKS Endpoint", passed := false,
        message := "Key 1 missing fields: kid" } := by
  have h := C4_jwks_fail_fast "https://op.example"
    [("jwks_uri", Json.str "https://op.example/jwks")]
    (Json.str "https://op.example/jwks") exC4Keys 1 rfl rfl
    (by decide) (by decide) (by decide)
  rw [h]
  rfl

/-- C5: in the Registration check, any response with a client_id whose
token_endpoint_auth_method is not "none" — including responses omitting
the field entirely — and without client_secret fails with the distinct
confidential-client message, not the generic missing-fields message. -/
theorem C5_confidential_missing_secret (u : String) (mfs cfs : List (String × Json))
    (ep cid : Json)
    (hep : List.lookup "registration_endpoint" mfs = some ep)
    (het : truthy ep = true)
    (hcid : List.lookup "client_id" cfs = some cid)
    (hauth : (List.lookup "token_endpoint_auth_method" cfs).getD Json.null ≠ Json.str "none")
    (hsec : List.lookup "client_secret" cfs = none) :
    (test_registration { ngrok_url := u, metadata := some (Json.obj mfs) }
        (.ok (Json.obj cfs))).2 =
      { name := "Registration Endpoint", passed := false,
        message := "Missing client_secret for confidential client",
        details := some (Json.obj cfs) } := by
  have hne : mfs ≠ [] := by
    intro hc
    rw [hc] at hep
    cases hep
  have htr : truthy (Json.obj mfs) = true := by
    cases mfs with
    | nil => exact absurd rfl hne
    | cons a l => rfl
  simp only [test_registration, htr, Bool.not_true, Bool.false_eq_true, if_false]
  simp only [regBody, pyGet, hep, Option.getD_some, het, Bind.bind, Except.bind,
             Bool.not_true, Bool.false_eq_true, if_false, pyFilterNotIn_obj, pyIn,
             hcid, hsec, hauth, if_true, pure, Except.pure]
  simp [hauth, hcid, hsec]

/-- Witness for C5: the registration response
`{"client_id": "abc123", "token_endpoint_auth_method": "client_secret_basic"}`
without a client_secret fails with the confidential-client message. -/
theorem C5_confidential_missing_secret_witness :
    (test_registration { ngrok_url := "https://op.example",
                         metadata := some (Json.obj
                           [("registration_endpoint", Json.str "https://op.example/reg")]) }
        (.ok (Json.obj [("client_id", Json.str "abc123"),
                        ("token_endpoint_auth_method", Json.str "client_secret_basic")]))).2 =
      { name := "Registration Endpoint", passed := false,
        message := "Missing client_secret for confidential client",
        details := some (Json.obj [("client_id", Json.str "abc123"),
          ("token_endpoint_auth_method", Json.str "client_secret_basic")]) } :=
  C5_confidential_missing_secret "https://op.example"
    [("registration_endpoint", Json.str "https://op.example/reg")]
    [("client_id", Json.str "abc123"),
     ("token_endpoint_auth_method", Json.str "client_secret_basic")]
    (Json.str "https://op.example/reg") (Json.str "abc123")
    rfl rfl rfl (by decide) rfl

/-- C6: for any discovery document, the missing-required-fields failure
and the issuer-mismatch failure are mutually exclusive and
distinguishable: the missing-fields validation applies first, the issuer
comparison is reached only when all seven required keys are present, and
no missing-fields message equals an issuer-mismatch message. -/
theorem C6_discovery_failures_exclusive (st : TesterState) (dfs : List (String × Json)) :
    ((discoveryRequired.filter fun f => (List.lookup f dfs).isNone) ≠ [] →
      (test_discovery st (.ok (Json.obj dfs))).2.passed = false ∧
      (test_discovery st (.ok (Json.obj dfs))).2.message =
        "Missing required fields: " ++
          joinComma (discoveryRequired.filter fun f => (List.lookup f dfs).isNone)) ∧
    ((discoveryRequired.filter fun f => (List.lookup f dfs).isNone) = [] →
      ∀ v, List.lookup "issuer" dfs = some v → v ≠ Json.str st.ngrok_url →
        (test_discovery st (.ok (Json.obj dfs))).2.passed = false ∧
        (test_discovery st (.ok (Json.obj dfs))).2.message =
          "Issuer mismatch: " ++ pyStr v ++ " != " ++ st.ngrok_url) ∧
    (∀ a b : String, "Missing required fields: " ++ a ≠ "Issuer mismatch: " ++ b) := by
  refine ⟨?_, ?_, ?_⟩
  · intro hmiss
    have hne : (discoveryRequired.filter fun f => (List.lookup f dfs).isNone).isEmpty
        = false := by
      cases hk : discoveryRequired.filter fun f => (List.lookup f dfs).isNone
      · exact absurd hk hmiss
      · rfl
    simp only [test_discovery, discoveryBody, pyFilterNotIn_obj, Bind.bind, Except.bind,
               hne, Bool.not_false, if_true, pure, Except.pure]
    constructor <;> trivial
  · intro hmiss v hv hvne
    simp only [test_discovery, discoveryBody, pyFilterNotIn_obj, Bind.bind, Except.bind,
               hmiss, List.isEmpty_nil, Bool.not_true, Bool.false_eq_true, if_false,
               pyIndex, hv, hvne, if_true, pure, Except.pure]
    simp [hvne]
  · intro a b
    refine append_ne_append_of_take_ne _ _ _ _ 3 (by decide) (by decide) (by decide)

/-- A discovery document with all required fields but a wrong issuer. -/
def exMismatchFields : List (String × Json) :=
  [("issuer", Json.str "https://evil.example"),
   ("authorization_endpoint", Json.str "https://op.example/auth"),
   ("token_endpoint", Json.str "https://op.example/token"),
   ("jwks_uri", Json.str "https://op.example/jwks"),
   ("response_types_supported", Json.arr [Json.str "code"]),
   ("subject_types_supported", Json.arr [Json.str "public"]),
   ("id_token_signing_alg_values_supported", Json.arr [Json.str "RS256"])]

/-- Witness for C6 at concrete documents: an empty document yields the
missing-fields message, a complete document with a wrong issuer yields
the issuer-mismatch message, and the two message families never
coincide. -/
theorem C6_discovery_failures_exclusive_witness :
    (test_discovery exTester (.ok (Json.obj []))).2.message =
      "Missing required fields: " ++ joinComma discoveryRequired ∧
    (test_discovery exTester (.ok (Json.obj exMismatchFields))).2.message =
      "Issuer mismatch: https://evil.example != https://op.example" ∧
    "Missing required fields: x" ≠ "Issuer mismatch: y" := by
  refine ⟨?_, ?_, ?_⟩
  · have h := ((C6_discovery_failures_exclusive exTester []).1 (by decide)).2
    rw [h]
    rfl
  · have h := ((C6_discovery_failures_exclusive exTester exMismatchFields).2.1
      (by decide) (Json.str "https://evil.example") rfl (by decide)).2
    rw [h]
    rfl
  · exact (C6_discovery_failures_exclusive exTester []).2.2 "x" "y"

/-- C7: for base URL "https://example.org/" (trailing slash) and a
discovery document whose issuer is "https://example.org" with all seven
required fields present, the Discovery check passes: the issuer is
compared byte-for-byte against the base URL after trailing-slash
stripping. -/
theorem C7_trailing_slash_issuer (dfs : List (String × Json))
    (hall : ∀ f ∈ discoveryRequired, (List.lookup f dfs).isSome = true)
    (hiss : List.lookup "issuer" dfs = some (Json.str "https://example.org")) :
    (test_discovery (mkTester "https://example.org/") (.ok (Json.obj dfs))).2.passed
      = true := by
  obtain ⟨va, hva⟩ := Option.isSome_iff_exists.mp
    (hall "authorization_endpoint" (by simp [discoveryRequired]))
  obtain ⟨vt, hvt⟩ := Option.isSome_iff_exists.mp
    (hall "token_endpoint" (by simp [discoveryRequired]))
  obtain ⟨vj, hvj⟩ := Option.isSome_iff_exists.mp
    (hall "jwks_uri" (by simp [discoveryRequired]))
  have hmiss : (discoveryRequired.filter fun f => (List.lookup f dfs).isNone) = [] := by
    apply List.filter_eq_nil_iff.mpr
    intro f hf
    have h := hall f hf
    cases hx : List.lookup f dfs with
    | none => rw [hx] at h; cases h
    | some v => simp [hx]
  have hurl : rstripSlash "https://example.org/" = "https://example.org" := by decide
  simp only [test_discovery, mkTester, hurl, discoveryBody, pyFilterNotIn_obj,
             Bind.bind, Except.bind, hmiss, List.isEmpty_nil, Bool.not_true,
             Bool.false_eq_true, if_false, pyIndex, hiss, hva, hvt, hvj, pyGet,
             pure, Except.pure]
  simp

/-- A complete discovery document for `https://example.org`. -/
def exC7Fields : List (String × Json) :=
  [("issuer", Json.str "https://example.org"),
   ("authorization_endpoint", Json.str "https://example.org/auth"),
   ("token_endpoint", Json.str "https://example.org/token"),
   ("jwks_uri", Json.str "https://example.org/jwks"),
   ("response_types_supported", Json.arr [Json.str "code"]),
   ("subject_types_supported", Json.arr [Json.str "public"]),
   ("id_token_signing_alg_values_supported", Json.arr [Json.str "RS256"])]

/-- Witness for C7 at a concrete document. -/
theorem C7_trailing_slash_issuer_witness :
    (test_discovery (mkTester "https://example.org/")
        (.ok (Json.obj exC7Fields))).2.passed = true :=
  C7_trailing_slash_issuer exC7Fields (by decide) rfl

/-- C8: the Registration-CRUD check runs Create, Read, Update, Delete in
strict sequence and aborts on the first failing sub-step: when the PUT
response's redirect_uris has length other than 2, the check fails with
"Client update failed" and the Delete sub-step is never executed — the
outcome is identical for every possible DELETE response. -/
theorem C8_crud_update_aborts (u : String) (mfs cfs rfs ufs : List (String × Json))
    (ep cid tok : Json) (rs : List Json)
    (hep : List.lookup "registration_endpoint" mfs = some ep)
    (het : truthy ep = true)
    (hcid : List.lookup "client_id" cfs = some cid)
    (htok : List.lookup "registration_access_token" cfs = some tok)
    (httr : truthy tok = true)
    (hrid : List.lookup "client_id" rfs = some cid)
    (hruris : List.lookup "redirect_uris" ufs = some (Json.arr rs))
    (hlen : rs.length ≠ 2) :
    ∀ delR : Except String Nat,
      (test_registration_crud { ngrok_url := u, metadata := some (Json.obj mfs) }
          (.ok (Json.obj cfs)) (.ok (Json.obj rfs)) (.ok (Json.obj ufs)) delR).2 =
        { name := "Registration CRUD", passed := false,
          message := "Client update failed" } := by
  intro delR
  have hne : mfs ≠ [] := by
    intro hc
    rw [hc] at hep
    cases hep
  have htr : truthy (Json.obj mfs) = true := by
    cases mfs with
    | nil => exact absurd rfl hne
    | cons a l => rfl
  simp only [test_registration_crud, htr, Bool.not_true, Bool.false_eq_true, if_false]
  simp only [crudBody, pyGet, hep, Option.getD_some, het, Bind.bind, Except.bind,
             Bool.not_true, Bool.false_eq_true, if_false, pyIndex, hcid, htok, httr,
             hrid, hruris, pyLen, hlen, pure, Except.pure]
  simp [hlen]

/-- Witness for C8: a PUT response with one redirect URI fails with
"Client update failed", and the outcome is the same whatever the DELETE
exchange would have returned. -/
theorem C8_crud_update_aborts_witness :
    (test_registration_crud { ngrok_url := "https://op.example",
                              metadata := some (Json.obj
                                [("registration_endpoint",
                                  Json.str "https://op.example/reg")]) }
        (.ok exGoodClient) (.ok exGoodClient)
        (.ok (Json.obj [("redirect_uris",
              Json.arr [Json.str "https://example.com/callback"])]))
        (.ok 204)).2 =
      { name := "Registration CRUD", passed := false,
        message := "Client update failed" } ∧
    (test_registration_crud { ngrok_url := "https://op.example",
                              metadata := some (Json.obj
                                [("registration_endpoint",
                                  Json.str "https://op.example/reg")]) }
        (.ok exGoodClient) (.ok exGoodClient)
        (.ok (Json.obj [("redirect_uris",
              Json.arr [Json.str "https://example.com/callback"])]))
        (.error "delete never sent")).2 =
      { name := "Registration CRUD", passed := false,
        message := "Client update failed" } :=
  ⟨C8_crud_update_aborts "https://op.example"
      [("registration_endpoint", Json.str "https://op.example/reg")]
      [("client_id", Json.str "abcdefghijk"),
       ("client_secret", Json.str "sec"),
       ("registration_access_token", Json.str "tok"),
       ("token_endpoint_auth_method", Json.str "client_secret_basic")]
      [("client_id", Json.str "abcdefghijk"),
       ("client_secret", Json.str "sec"),
       ("registration_access_token", Json.str "tok"),
       ("token_endpoint_auth_method", Json.str "client_secret_basic")]
      [("redirect_uris", Json.arr [Json.str "https://example.com/callback"])]
      (Json.str "https://op.example/reg") (Json.str "abcdefghijk") (Json.str "tok")
      [Json.str "https://example.com/callback"]
      rfl rfl rfl rfl rfl rfl rfl (by decide) (.ok 204),
   C8_crud_update_aborts "https://op.example"
      [("registration_endpoint", Json.str "https://op.example/reg")]
      [("client_id", Json.str "abcdefghijk"),
       ("client_secret", Json.str "sec"),
       ("registration_access_token", Json.str "tok"),
       ("token_endpoint_auth_method", Json.str "client_secret_basic")]
      [("client_id", Json.str "abcdefghijk"),
       ("client_secret", Json.str "sec"),
       ("registration_access_token", Json.str "tok"),
       ("token_endpoint_auth_method", Json.str "client_secret_basic")]
      [("redirect_uris", Json.arr [Json.str "https://example.com/callback"])]
      (Json.str "https://op.example/reg") (Json.str "abcdefghijk") (Json.str "tok")
      [Json.str "https://example.com/callback"]
      rfl rfl rfl rfl rfl rfl rfl (by decide) (.error "delete never sent")⟩

/-- A Discovery pass certifies that the document is an object carrying
all seven required fields. -/
theorem discoveryBody_passed (st : TesterState) (doc : Json) (r : TestResult)
    (h : discoveryBody st doc = .ok r) (hp : r.passed = true) :
    ∃ fs, doc = Json.obj fs ∧
      ∀ f ∈ discoveryRequired, (List.lookup f fs).isSome = true := by
  cases doc with
  | obj fs =>
    refine ⟨fs, rfl, ?_⟩
    simp only [discoveryBody, pyFilterNotIn_obj, Bind.bind, Except.bind] at h
    split at h
    · simp only [pure, Except.pure, Except.ok.injEq] at h
      rw [← h] at hp
      cases hp
    · rename_i hemp
      have hfil : (discoveryRequired.filter fun f => (List.lookup f fs).isNone) = [] := by
        revert hemp
        cases discoveryRequired.filter fun f => (List.lookup f fs).isNone <;> simp
      intro f hf
      have hni := List.filter_eq_nil_iff.mp hfil f hf
      cases hx : List.lookup f fs with
      | none => rw [hx] at hni; simp at hni
      | some v => rfl
  | null =>
    simp only [discoveryBody, Bind.bind, Except.bind] at h
    cases hf : pyFilterNotIn discoveryRequired (Json.null) with
    | error e =>
      rw [hf] at h
      exact Except.noConfusion h
    | ok m =>
      rw [hf] at h
      iterate 3 (all_goals try split at h)
      all_goals (first
        | exact Except.noConfusion h
        | (simp only [pure, Except.pure, Except.ok.injEq] at h
           rw [← h] at hp
           cases hp))
  | bool b =>
    simp only [discoveryBody, Bind.bind, Except.bind] at h
    cases hf : pyFilterNotIn discoveryRequired (Json.bool b) with
    | error e =>
      rw [hf] at h
      exact Except.noConfusion h
    | ok m =>
      rw [hf] at h
      iterate 3 (all_goals try split at h)
      all_goals (first
        | exact Except.noConfusion h
        | (simp only [pure, Except.pure, Except.ok.injEq] at h
           rw [← h] at hp
           cases hp))
  | num n =>
    simp only [discoveryBody, Bind.bind, Except.bind] at h
    cases hf : pyFilterNotIn discoveryRequired (Json.num n) with
    | error e =>
      rw [hf] at h
      exact Except.noConfusion h
    | ok m =>
      rw [hf] at h
      iterate 3 (all_goals try split at h)
      all_goals (first
        | exact Except.noConfusion h
        | (simp only [pure, Except.pure, Except.ok.injEq] at h
           rw [← h] at hp
           cases hp))
  | str s2 =>
    simp only [discoveryBody, Bind.bind, Except.bind] at h
    cases hf : pyFilterNotIn discoveryRequired (Json.str s2) with
    | error e =>
      rw [hf] at h
      exact Except.noConfusion h
    | ok m =>
      rw [hf] at h
      iterate 3 (all_goals try split at h)
      all_goals (first
        | exact Except.noConfusion h
        | (simp only [pure, Except.pure, Except.ok.injEq] at h
           rw [← h] at hp
           cases hp))
  | arr xs =>
    simp only [discoveryBody, Bind.bind, Except.bind] at h
    cases hf : pyFilterNotIn discoveryRequired (Json.arr xs) with
    | error e =>
      rw [hf] at h
      exact Except.noConfusion h
    | ok m =>
      rw [hf] at h
      iterate 3 (all_goals try split at h)
      all_goals (first
        | exact Except.noConfusion h
        | (simp only [pure, Except.pure, Except.ok.injEq] at h
           rw [← h] at hp
           cases hp))

/-- No result of the JWKS fetch-and-validate stage carries either
precondition-failure message. -/
theorem jwksFetch_message_ne (resp : Except String Json) (r : TestResult)
    (h : jwksFetch resp = .ok r) :
    r.message ≠ "Discovery must pass first" ∧
    r.message ≠ "No jwks_uri in discovery" := by
  unfold jwksFetch at h
  simp only [Bind.bind, Except.bind, pure, Except.pure] at h
  iterate 12 (all_goals try split at h)
  all_goals (try (cases h))
  all_goals (try exact ⟨by decide, by decide⟩)
  all_goals (try (constructor <;>
    (rw [String.append_assoc]
     exact append_ne_of_take_ne _ _ _ (by decide))))
  all_goals (obtain ⟨s2, hs2⟩ := jwksCheckKeys_message _ _ _ (by assumption)
             rw [hs2]
             exact ⟨append_ne_of_take_ne _ _ _ (by decide),
                    append_ne_of_take_ne _ _ _ (by decide)⟩)

/-- With cached metadata holding a jwks_uri key, the JWKS check cannot
report "Discovery must pass first"; with a truthy jwks_uri value it
cannot report "No jwks_uri in discovery" either. -/
theorem test_jwks_message_ne (st : TesterState) (resp : Except String Json)
    (fs : List (String × Json))
    (hmd : st.metadata = some (Json.obj fs))
    (hsome : (List.lookup "jwks_uri" fs).isSome = true) :
    (test_jwks st resp).2.message ≠ "Discovery must pass first" ∧
    (∀ u, List.lookup "jwks_uri" fs = some u → truthy u = true →
      (test_jwks st resp).2.message ≠ "No jwks_uri in discovery") := by
  obtain ⟨u0, hu0⟩ := Option.isSome_iff_exists.mp hsome
  have hne : fs ≠ [] := by
    intro hc
    rw [hc] at hu0
    cases hu0
  have htr : truthy (Json.obj fs) = true := by
    cases fs with
    | nil => exact absurd rfl hne
    | cons a l => rfl
  simp only [test_jwks, hmd, htr, Bool.not_true, Bool.false_eq_true, if_false]
  simp only [jwksBody, pyGet, hu0, Option.getD_some, Bind.bind, Except.bind]
  constructor
  · cases htu : truthy u0 with
    | false =>
      simp only [htu, Bool.not_false, if_true, pure, Except.pure]
      decide
    | true =>
      simp only [htu, Bool.not_true, Bool.false_eq_true, if_false, pure, Except.pure]
      cases hj : jwksFetch resp with
      | error e => exact append_ne_of_take_ne _ _ _ (by decide)
      | ok r2 => exact (jwksFetch_message_ne resp r2 hj).1
  · intro u hu htu
    cases hu
    simp only [htu, Bool.not_true, Bool.false_eq_true, if_false, pure, Except.pure]
    cases hj : jwksFetch resp with
    | error e => exact append_ne_of_take_ne _ _ _ (by decide)
    | ok r2 => exact (jwksFetch_message_ne resp r2 hj).2

/-- A discovery document carrying all seven required keys whose
`jwks_uri` value is the empty string. -/
def exC10Doc : Json := Json.obj
  [("issuer", Json.str "https://op.example"),
   ("authorization_endpoint", Json.str "https://op.example/auth"),
   ("token_endpoint", Json.str "https://op.example/token"),
   ("jwks_uri", Json.str ""),
   ("response_types_supported", Json.arr [Json.str "code"]),
   ("subject_types_supported", Json.arr [Json.str "public"]),
   ("id_token_signing_alg_values_supported", Json.arr [Json.str "RS256"])]

/-- The oracle for the C10 counterexample run. -/
def exC10Env : Env := { exGoodEnv with discovery := .ok exC10Doc }

/-- Counterexample to C10 as stated: in the orchestrated sequence the
Discovery check succeeds (all seven keys present, issuer matching), yet
the JWKS check does fire its "No jwks_uri in discovery" failure branch,
because the cached `jwks_uri` value is falsy (an empty string). -/
theorem C10_counterexample_falsy_jwks_uri :
    (run_all_tests exTester exC10Env).2.map (fun r => (r.name, r.passed, r.message)) =
      [("Discovery Endpoint", true, "All required fields present"),
       ("JWKS Endpoint", false, "No jwks_uri in discovery"),
       ("Registration Endpoint", false, "No registration_endpoint in discovery"),
       ("Registration CRUD", false, "No registration_endpoint in discovery"),
       ("Metadata Compliance", false, "Found 3 compliance issue(s)")] := rfl

/-- C10 (amended): whenever the Discovery check has succeeded, the
cached metadata is an object containing the jwks_uri key, and the JWKS
check's "Discovery must pass first" branch is unreachable; the
"No jwks_uri in discovery" branch is additionally unreachable provided
the cached jwks_uri value is truthy — with a falsy value (e.g. the empty
string) it can still fire inside the orchestrated sequence. -/
theorem C10_amended_jwks_preconditions (st : TesterState) (env : Env)
    (hpass : (test_discovery st env.discovery).2.passed = true) :
    (∃ fs, (test_discovery st env.discovery).1.metadata = some (Json.obj fs) ∧
       (List.lookup "jwks_uri" fs).isSome = true) ∧
    (test_jwks (test_discovery st env.discovery).1 env.jwks).2.message ≠
      "Discovery must pass first" ∧
    (∀ fs u, (test_discovery st env.discovery).1.metadata = some (Json.obj fs) →
       List.lookup "jwks_uri" fs = some u → truthy u = true →
       (test_jwks (test_discovery st env.discovery).1 env.jwks).2.message ≠
         "No jwks_uri in discovery") := by
  cases hd : env.discovery with
  | error e =>
    rw [hd] at hpass
    simp [test_discovery] at hpass
  | ok doc =>
    rw [hd] at hpass
    cases hb : discoveryBody { st with metadata := some doc } doc with
    | error e =>
      rw [show test_discovery st (.ok doc) =
        ({ st with metadata := some doc },
         { name := "Discovery Endpoint", passed := false,
           message := "Failed: " ++ e }) from by simp [test_discovery, hb]] at hpass
      cases hpass
    | ok r =>
      have hw : test_discovery st (.ok doc) = ({ st with metadata := some doc }, r) := by
        simp [test_discovery, hb]
      rw [hw] at hpass ⊢
      obtain ⟨fs, hfs, hall⟩ := discoveryBody_passed _ _ _ hb hpass
      have hsome := hall "jwks_uri" (by simp [discoveryRequired])
      have hmd : ({ st with metadata := some doc } : TesterState).metadata =
          some (Json.obj fs) := by rw [hfs]
      refine ⟨⟨fs, hmd, hsome⟩, ?_, ?_⟩
      · exact (test_jwks_message_ne _ env.jwks fs hmd hsome).1
      · intro fs2 u hmd2 hu htu
        rw [hmd] at hmd2
        have hfs2 : fs = fs2 := by
          have h2 := Option.some.inj hmd2
          cases h2
          rfl
        rw [← hfs2] at hu
        exact (test_jwks_message_ne _ env.jwks fs hmd hsome).2 u hu htu

/-- Witness for the amended C10 at a concrete passing run: neither
precondition failure message appears. -/
theorem C10_amended_jwks_preconditions_witness :
    (test_jwks (test_discovery exTester exGoodEnv.discovery).1 exGoodEnv.jwks).2.message ≠
      "Discovery must pass first" :=
  (C10_amended_jwks_preconditions exTester exGoodEnv rfl).2.1
